import Mathlib

/-!
# FabMo-G2-Core: configuration headers and the motion core they size

Shallow embedding of the two configuration headers

* `TinyG2/tinyg2.h` (namespace `TinyG2`)
* `g2core/board/ArduinoDue/hardware.h` (namespace `ArduinoDue`)

and of the move queue and velocity planner they parameterize (namespace `Planner`).

Preprocessor constants become `Nat` definitions under their source names, the status-code
`#define` blocks become tables of `(name, value)` rows, the `ritorno` macro becomes an explicit
state-passing function over the global `status_code`, and the interrupt table and timer typedefs
of `hardware.h` become row lists. The headers define other macros with small values
(`AXIS_X`, `MOTOR_1`, `PWM_1`, `ALARM_LIMIT_OFFSET`, ...); those are axis, motor, channel and
alarm-offset numbers, not status codes, and are left out of the status tables.
-/

namespace TinyG2

/-! ## Axes, motors and PWM channels (tinyg2.h, lines 168-171) -/

/-- Number of axes supported in this version. -/
def AXES : Nat := 6
/-- Number of motors on the board. -/
def MOTORS : Nat := 6
/-- Number of supported coordinate systems. -/
def COORDS : Nat := 6
/-- Number of supported PWM channels. -/
def PWMS : Nat := 2

/-! ## Status codes (tinyg2.h, lines 217-297) -/

/-- Width of `stat_t` (`typedef uint8_t stat_t`): values live in `0 .. 255`. -/
def STAT_T_MODULUS : Nat := 2 ^ 8

-- OS, communications and low-level status (must align with XIO_xxxx codes in xio.h)
def STAT_OK : Nat := 0
def STAT_ERROR : Nat := 1
def STAT_EAGAIN : Nat := 2
def STAT_NOOP : Nat := 3
def STAT_COMPLETE : Nat := 4
def STAT_TERMINATE : Nat := 5
def STAT_RESET : Nat := 6
def STAT_EOL : Nat := 7
def STAT_EOF : Nat := 8
def STAT_FILE_NOT_OPEN : Nat := 9
def STAT_FILE_SIZE_EXCEEDED : Nat := 10
def STAT_NO_SUCH_DEVICE : Nat := 11
def STAT_BUFFER_EMPTY : Nat := 12
def STAT_BUFFER_FULL : Nat := 13
def STAT_BUFFER_FULL_FATAL : Nat := 14
def STAT_INITIALIZING : Nat := 15
def STAT_ENTERING_BOOT_LOADER : Nat := 16
def STAT_ERROR_17 : Nat := 17
def STAT_ERROR_18 : Nat := 18
def STAT_ERROR_19 : Nat := 19

-- Internal errors and startup messages
def STAT_INTERNAL_ERROR : Nat := 20
def STAT_INTERNAL_RANGE_ERROR : Nat := 21
def STAT_FLOATING_POINT_ERROR : Nat := 22
def STAT_DIVIDE_BY_ZERO : Nat := 23
def STAT_INVALID_ADDRESS : Nat := 24
def STAT_READ_ONLY_ADDRESS : Nat := 25
def STAT_INIT_FAIL : Nat := 26
def STAT_ALARMED : Nat := 27
def STAT_MEMORY_FAULT : Nat := 28
def STAT_ERROR_29 : Nat := 29
def STAT_ERROR_30 : Nat := 30
def STAT_ERROR_31 : Nat := 31
def STAT_ERROR_32 : Nat := 32
def STAT_ERROR_33 : Nat := 33
def STAT_ERROR_34 : Nat := 34
def STAT_ERROR_35 : Nat := 35
def STAT_ERROR_36 : Nat := 36
def STAT_ERROR_37 : Nat := 37
def STAT_ERROR_38 : Nat := 38
def STAT_ERROR_39 : Nat := 39

-- Input errors
def STAT_UNRECOGNIZED_COMMAND : Nat := 40
def STAT_EXPECTED_COMMAND_LETTER : Nat := 41
def STAT_BAD_NUMBER_FORMAT : Nat := 42
def STAT_INPUT_EXCEEDS_MAX_LENGTH : Nat := 43
def STAT_INPUT_VALUE_TOO_SMALL : Nat := 44
def STAT_INPUT_VALUE_TOO_LARGE : Nat := 45
def STAT_INPUT_VALUE_RANGE_ERROR : Nat := 46
def STAT_INPUT_VALUE_UNSUPPORTED : Nat := 47
def STAT_JSON_SYNTAX_ERROR : Nat := 48
def STAT_JSON_TOO_MANY_PAIRS : Nat := 49
def STAT_JSON_TOO_LONG : Nat := 50
def STAT_NO_BUFFER_SPACE : Nat := 51
def STAT_CONFIG_NOT_TAKEN : Nat := 52
def STAT_ERROR_53 : Nat := 53
def STAT_ERROR_54 : Nat := 54
def STAT_ERROR_55 : Nat := 55
def STAT_ERROR_56 : Nat := 56
def STAT_ERROR_57 : Nat := 57
def STAT_ERROR_58 : Nat := 58
def STAT_ERROR_59 : Nat := 59

-- Gcode and machining errors
def STAT_MINIMUM_LENGTH_MOVE_ERROR : Nat := 60
def STAT_MINIMUM_TIME_MOVE_ERROR : Nat := 61
def STAT_GCODE_BLOCK_SKIPPED : Nat := 62
def STAT_GCODE_INPUT_ERROR : Nat := 63
def STAT_GCODE_FEEDRATE_ERROR : Nat := 64
def STAT_GCODE_AXIS_WORD_MISSING : Nat := 65
def STAT_MODAL_GROUP_VIOLATION : Nat := 66
def STAT_HOMING_CYCLE_FAILED : Nat := 67
def STAT_MAX_TRAVEL_EXCEEDED : Nat := 68
def STAT_MAX_SPINDLE_SPEED_EXCEEDED : Nat := 69
def STAT_ARC_SPECIFICATION_ERROR : Nat := 70
def STAT_SOFT_LIMIT_EXCEEDED : Nat := 71
def STAT_COMMAND_NOT_ACCEPTED : Nat := 72
def STAT_PROBING_CYCLE_FAILED : Nat := 73

/-- One `#define STAT_xxx n` row of the header: the macro name and its value. -/
abbrev StatusRow := String × Nat

/-- The block headed "OS, communications and low-level status" (lines 217-237). -/
def os_status_codes : List StatusRow :=
  [ ("STAT_OK", STAT_OK), ("STAT_ERROR", STAT_ERROR), ("STAT_EAGAIN", STAT_EAGAIN),
    ("STAT_NOOP", STAT_NOOP), ("STAT_COMPLETE", STAT_COMPLETE),
    ("STAT_TERMINATE", STAT_TERMINATE), ("STAT_RESET", STAT_RESET), ("STAT_EOL", STAT_EOL),
    ("STAT_EOF", STAT_EOF), ("STAT_FILE_NOT_OPEN", STAT_FILE_NOT_OPEN),
    ("STAT_FILE_SIZE_EXCEEDED", STAT_FILE_SIZE_EXCEEDED),
    ("STAT_NO_SUCH_DEVICE", STAT_NO_SUCH_DEVICE), ("STAT_BUFFER_EMPTY", STAT_BUFFER_EMPTY),
    ("STAT_BUFFER_FULL", STAT_BUFFER_FULL), ("STAT_BUFFER_FULL_FATAL", STAT_BUFFER_FULL_FATAL),
    ("STAT_INITIALIZING", STAT_INITIALIZING),
    ("STAT_ENTERING_BOOT_LOADER", STAT_ENTERING_BOOT_LOADER), ("STAT_ERROR_17", STAT_ERROR_17),
    ("STAT_ERROR_18", STAT_ERROR_18), ("STAT_ERROR_19", STAT_ERROR_19) ]

/-- The block headed "Internal errors and startup messages" (lines 239-259). -/
def internal_status_codes : List StatusRow :=
  [ ("STAT_INTERNAL_ERROR", STAT_INTERNAL_ERROR),
    ("STAT_INTERNAL_RANGE_ERROR", STAT_INTERNAL_RANGE_ERROR),
    ("STAT_FLOATING_POINT_ERROR", STAT_FLOATING_POINT_ERROR),
    ("STAT_DIVIDE_BY_ZERO", STAT_DIVIDE_BY_ZERO), ("STAT_INVALID_ADDRESS", STAT_INVALID_ADDRESS),
    ("STAT_READ_ONLY_ADDRESS", STAT_READ_ONLY_ADDRESS), ("STAT_INIT_FAIL", STAT_INIT_FAIL),
    ("STAT_ALARMED", STAT_ALARMED), ("STAT_MEMORY_FAULT", STAT_MEMORY_FAULT),
    ("STAT_ERROR_29", STAT_ERROR_29), ("STAT_ERROR_30", STAT_ERROR_30),
    ("STAT_ERROR_31", STAT_ERROR_31), ("STAT_ERROR_32", STAT_ERROR_32),
    ("STAT_ERROR_33", STAT_ERROR_33), ("STAT_ERROR_34", STAT_ERROR_34),
    ("STAT_ERROR_35", STAT_ERROR_35), ("STAT_ERROR_36", STAT_ERROR_36),
    ("STAT_ERROR_37", STAT_ERROR_37), ("STAT_ERROR_38", STAT_ERROR_38),
    ("STAT_ERROR_39", STAT_ERROR_39) ]

/-- The block headed "Input errors" (lines 261-281). -/
def input_status_codes : List StatusRow :=
  [ ("STAT_UNRECOGNIZED_COMMAND", STAT_UNRECOGNIZED_COMMAND),
    ("STAT_EXPECTED_COMMAND_LETTER", STAT_EXPECTED_COMMAND_LETTER),
    ("STAT_BAD_NUMBER_FORMAT", STAT_BAD_NUMBER_FORMAT),
    ("STAT_INPUT_EXCEEDS_MAX_LENGTH", STAT_INPUT_EXCEEDS_MAX_LENGTH),
    ("STAT_INPUT_VALUE_TOO_SMALL", STAT_INPUT_VALUE_TOO_SMALL),
    ("STAT_INPUT_VALUE_TOO_LARGE", STAT_INPUT_VALUE_TOO_LARGE),
    ("STAT_INPUT_VALUE_RANGE_ERROR", STAT_INPUT_VALUE_RANGE_ERROR),
    ("STAT_INPUT_VALUE_UNSUPPORTED", STAT_INPUT_VALUE_UNSUPPORTED),
    ("STAT_JSON_SYNTAX_ERROR", STAT_JSON_SYNTAX_ERROR),
    ("STAT_JSON_TOO_MANY_PAIRS", STAT_JSON_TOO_MANY_PAIRS),
    ("STAT_JSON_TOO_LONG", STAT_JSON_TOO_LONG), ("STAT_NO_BUFFER_SPACE", STAT_NO_BUFFER_SPACE),
    ("STAT_CONFIG_NOT_TAKEN", STAT_CONFIG_NOT_TAKEN), ("STAT_ERROR_53", STAT_ERROR_53),
    ("STAT_ERROR_54", STAT_ERROR_54), ("STAT_ERROR_55", STAT_ERROR_55),
    ("STAT_ERROR_56", STAT_ERROR_56), ("STAT_ERROR_57", STAT_ERROR_57),
    ("STAT_ERROR_58", STAT_ERROR_58), ("STAT_ERROR_59", STAT_ERROR_59) ]

/-- The block headed "Gcode and machining errors" (lines 283-297). -/
def gcode_status_codes : List StatusRow :=
  [ ("STAT_MINIMUM_LENGTH_MOVE_ERROR", STAT_MINIMUM_LENGTH_MOVE_ERROR),
    ("STAT_MINIMUM_TIME_MOVE_ERROR", STAT_MINIMUM_TIME_MOVE_ERROR),
    ("STAT_GCODE_BLOCK_SKIPPED", STAT_GCODE_BLOCK_SKIPPED),
    ("STAT_GCODE_INPUT_ERROR", STAT_GCODE_INPUT_ERROR),
    ("STAT_GCODE_FEEDRATE_ERROR", STAT_GCODE_FEEDRATE_ERROR),
    ("STAT_GCODE_AXIS_WORD_MISSING", STAT_GCODE_AXIS_WORD_MISSING),
    ("STAT_MODAL_GROUP_VIOLATION", STAT_MODAL_GROUP_VIOLATION),
    ("STAT_HOMING_CYCLE_FAILED", STAT_HOMING_CYCLE_FAILED),
    ("STAT_MAX_TRAVEL_EXCEEDED", STAT_MAX_TRAVEL_EXCEEDED),
    ("STAT_MAX_SPINDLE_SPEED_EXCEEDED", STAT_MAX_SPINDLE_SPEED_EXCEEDED),
    ("STAT_ARC_SPECIFICATION_ERROR", STAT_ARC_SPECIFICATION_ERROR),
    ("STAT_SOFT_LIMIT_EXCEEDED", STAT_SOFT_LIMIT_EXCEEDED),
    ("STAT_COMMAND_NOT_ACCEPTED", STAT_COMMAND_NOT_ACCEPTED),
    ("STAT_PROBING_CYCLE_FAILED", STAT_PROBING_CYCLE_FAILED) ]

/-- Every status code the header defines after the first block. -/
def later_status_codes : List StatusRow :=
  internal_status_codes ++ input_status_codes ++ gcode_status_codes

/-- Every status code the header defines, in source order. -/
def all_status_codes : List StatusRow :=
  os_status_codes ++ later_status_codes

/-! ## The `ritorno` macro (tinyg2.h, line 215)

`#define ritorno(a) if((status_code=a) != STAT_OK) { return(status_code); }`

`status_code` is the global `extern stat_t status_code`; the assignment converts the argument to
`uint8_t`. The argument is evaluated once (it appears once in the expansion). -/

/-- The global the macro writes: `extern stat_t status_code` (allocated in main.c). -/
structure Globals where
  status_code : Nat
  deriving DecidableEq, Repr

/-- What happens at a statement inside a function body returning `stat_t`: either the function
returns with a value, or control falls through to the next statement. -/
inductive Flow where
  | returned (value : Nat)
  | continues
  deriving DecidableEq, Repr

/-- The expansion of `ritorno(a)`: store `a` into `status_code` (truncated to 8 bits), then
return `status_code` when it differs from `STAT_OK`, else fall through. -/
def ritorno (a : Nat) (g : Globals) : Globals × Flow :=
  let g1 : Globals := { g with status_code := a % STAT_T_MODULUS }
  if g1.status_code ≠ STAT_OK then (g1, Flow.returned g1.status_code) else (g1, Flow.continues)

/-- A function body of the shape `ritorno(a); rest` where `rest` is the remainder of the body,
itself ending in a return of a `stat_t`. -/
def body_after_ritorno (a : Nat) (rest : Globals → Globals × Nat) (g : Globals) :
    Globals × Nat :=
  match ritorno a g with
  | (g1, Flow.returned v) => (g1, v)
  | (g1, Flow.continues) => rest g1

end TinyG2

namespace ArduinoDue

/-! ## Motors, PWM channels and axes (hardware.h, lines 50-64) -/

/-- `HAS_LASER` default (`#ifndef HAS_LASER`). -/
def HAS_LASER : Nat := 0
/-- `#if HAS_LASER` selects 5 motors, otherwise 4. -/
def MOTORS : Nat := if HAS_LASER ≠ 0 then 5 else 4
/-- Number of PWM channels supported by the hardware. -/
def PWMS : Nat := 2
/-- Axes to support; the source comment requires 6 or 9. -/
def AXES : Nat := 6

/-! ## Stepper DDA and dwell timer settings (hardware.h, lines 119-124) -/

/-- Step frequency in Hz (`100000UL`). -/
def FREQUENCY_DDA : Nat := 100000
/-- Dwell timer frequency in Hz (`1000UL`). -/
def FREQUENCY_DWELL : Nat := 1000
/-- Segment time in milliseconds: `((double)1.0)`. The literal is exactly representable,
so the rational `1` is its exact value. -/
def MIN_SEGMENT_MS : ℚ := 1
/-- Planner queue depth. -/
def PLANNER_QUEUE_SIZE : Nat := 48
/-- Secondary queue depth. -/
def SECONDARY_QUEUE_SIZE : Nat := 10

/-- Number of DDA ticks (periods of the `FREQUENCY_DDA` clock) in a span of `ms` milliseconds. -/
def dda_ticks_in (ms : ℚ) : ℚ := ms * (FREQUENCY_DDA : ℚ) / 1000

/-! ## Interrupt usage and priority (hardware.h, lines 105-115) -/

/-- The interrupts listed in the table. -/
inductive Interrupt where
  | DDA_TIMER
  | DWELL_TIMER
  | LOADER
  | SERIAL_READ
  | EXEC
  | SERIAL_WRITE
  deriving DecidableEq, Repr

/-- One row of the table: priority, interrupt, the hardware timer number written in
parentheses after the name (if any) and whether the row says "software generated interrupt". -/
structure InterruptRow where
  priority : Nat
  source : Interrupt
  timer : Option Nat
  software_generated : Bool
  deriving DecidableEq, Repr

/-- The table, row by row as written. -/
def interrupt_table : List InterruptRow :=
  [ { priority := 0, source := Interrupt.DDA_TIMER, timer := some 3, software_generated := false },
    { priority := 1, source := Interrupt.DWELL_TIMER, timer := some 4, software_generated := false },
    { priority := 2, source := Interrupt.LOADER, timer := none, software_generated := true },
    { priority := 3, source := Interrupt.SERIAL_READ, timer := none, software_generated := false },
    { priority := 4, source := Interrupt.EXEC, timer := none, software_generated := true },
    { priority := 5, source := Interrupt.SERIAL_WRITE, timer := none, software_generated := false } ]

/-- Priority the table lists for an interrupt. -/
def priority_of (i : Interrupt) : Option Nat :=
  (interrupt_table.find? (fun r => r.source = i)).map (fun r => r.priority)

/-- Hardware timer the table lists for an interrupt. -/
def documented_timer (i : Interrupt) : Option Nat :=
  (interrupt_table.find? (fun r => r.source = i)).bind (fun r => r.timer)

/-- Interrupt the table documents as the user of hardware timer `n`. -/
def documented_user (n : Nat) : Option Interrupt :=
  (interrupt_table.find? (fun r => r.timer = some n)).map (fun r => r.source)

/-! ## Timer definitions (hardware.h, lines 128-131) -/

/-- The timer-channel typedef names of the header. -/
inductive TimerTypedef where
  | dda_timer_type
  | exec_timer_type
  | fwd_plan_timer_type
  deriving DecidableEq, Repr

/-- The template arguments of `Motate::TimerChannel<timer, channel>`. -/
structure TimerChannel where
  timer : Nat
  channel : Nat
  deriving DecidableEq, Repr

/-- The typedefs: `TimerChannel<3,0>`, `TimerChannel<4,0>`, `TimerChannel<5,0>`. -/
def timer_binding : TimerTypedef → TimerChannel
  | TimerTypedef.dda_timer_type => { timer := 3, channel := 0 }
  | TimerTypedef.exec_timer_type => { timer := 4, channel := 0 }
  | TimerTypedef.fwd_plan_timer_type => { timer := 5, channel := 0 }

/-- All typedef names, in source order. -/
def timer_typedefs : List TimerTypedef :=
  [TimerTypedef.dda_timer_type, TimerTypedef.exec_timer_type, TimerTypedef.fwd_plan_timer_type]

/-- The interrupt of the table a typedef serves, as its trailing source comment says:
"stepper pulse generation" for `dda_timer_type`, "request exec timer" for `exec_timer_type`;
`fwd_plan_timer_type` (forward planning) has no row in the table. -/
def typedef_function : TimerTypedef → Option Interrupt
  | TimerTypedef.dda_timer_type => some Interrupt.DDA_TIMER
  | TimerTypedef.exec_timer_type => some Interrupt.EXEC
  | TimerTypedef.fwd_plan_timer_type => none

/-- Typedef that binds hardware timer `n`, if any. -/
def typedef_on_timer (n : Nat) : Option TimerTypedef :=
  timer_typedefs.find? (fun t => (timer_binding t).timer = n)

/-- Typedef bound for a given interrupt of the table, if any. -/
def typedef_for (i : Interrupt) : Option TimerTypedef :=
  timer_typedefs.find? (fun t => typedef_function t = some i)

end ArduinoDue

namespace Planner

/-!
## Move queue and velocity planner

Neither header contains the motion core; they only size it (`PLANNER_QUEUE_SIZE`, `AXES`) and name
its status codes. The definitions of this section follow the written design of the core: the data
model (Move Block, Move Queue, Limits), the Move Queue contract, the two-pass Velocity Planner
and the inbound `submit_move` interface. Velocities, lengths and positions are integers in
machine units. The physics the design leaves to configuration (jerk/acceleration budget,
cornering deviation, per-direction maximum velocity) is a parameter, `Limits`.
-/

/-- Modelled from the spec: the move type of a Move Block, `{line, dwell, command}`; the data
model is not declared in the headers. -/
inductive MoveType where
  | line
  | dwell
  | command
  deriving DecidableEq, Repr

/-- Modelled from the spec: the arguments of
`submit_move(target_position[AXES], feed_rate, move_type)`, an interface the headers do not
declare. -/
structure MoveRequest where
  target_position : List Int
  feed_rate : Nat
  move_type : MoveType
  deriving DecidableEq, Repr

/-- Modelled from the spec: the Move Block of the data model (absent from the headers): target
position per axis, requested feed rate, move type, computed entry / cruise / exit velocity and
the maximum velocity for this move. The per-axis unit vector and the scalar length are carried
as their product, the exact per-axis displacement. -/
structure MoveBlock where
  target : List Int
  displacement : List Int
  feed_rate : Nat
  move_type : MoveType
  max_velocity : Nat
  entry_velocity : Nat
  cruise_velocity : Nat
  exit_velocity : Nat
  deriving DecidableEq, Repr

/-- Modelled from the spec: the read-only Jerk/Acceleration/Velocity Limits supplied by
configuration, which the headers do not contain. `min_length` is the minimum move length,
`max_velocity d` the maximum velocity implied by direction `d`, `corner_velocity d1 d2` the
cornering-deviation bound on the velocity shared by consecutive moves, `reach d v` the largest
velocity that a move along `d` can reach from `v` (equally: from which it can brake to `v`)
within its jerk/acceleration budget, and `peak d e x` the peak velocity of the profile along
`d` entered at `e` and left at `x`. A peak is never below either end of its profile. -/
structure Limits where
  min_length : Nat
  max_velocity : List Int → Nat
  corner_velocity : List Int → List Int → Nat
  reach : List Int → Nat → Nat
  peak : List Int → Nat → Nat → Nat
  entry_le_peak : ∀ d e x, e ≤ peak d e x
  exit_le_peak : ∀ d e x, x ≤ peak d e x

/-- Modelled from the spec: planner state (absent from the headers): the Move Queue, oldest
block first, and the position the next move starts from. -/
structure PlannerState where
  queue : List MoveBlock
  position : List Int
  deriving DecidableEq, Repr

/-- Modelled from the spec: the idle planner at start-up (absent from the headers): empty
queue, all `AXES` axes at zero. -/
def initial : PlannerState :=
  { queue := [], position := List.replicate ArduinoDue.AXES 0 }

/-- Modelled from the spec: per-axis signed distance from `position` to `target` (the
arithmetic of the absent core). -/
def axis_displacement (target position : List Int) : List Int :=
  List.zipWith (fun t p => t - p) target position

/-- Modelled from the spec: square of the scalar length of a displacement (the arithmetic of
the absent core). -/
def length_sq (d : List Int) : Nat :=
  (d.map (fun x => x.natAbs * x.natAbs)).sum

/-- Modelled from the spec: "the queue is full", i.e. the ring buffer of `PLANNER_QUEUE_SIZE`
slots has no free slot (the queue code is absent from the headers). -/
def queue_full (s : PlannerState) : Prop :=
  ArduinoDue.PLANNER_QUEUE_SIZE ≤ s.queue.length

instance (s : PlannerState) : Decidable (queue_full s) := by
  unfold queue_full; infer_instance

/-- Modelled from the spec: a move is degenerate when it is zero-length or
below-minimum-length (the admission test of the absent `submit_move`). -/
def is_degenerate (lim : Limits) (s : PlannerState) (m : MoveRequest) : Prop :=
  length_sq (axis_displacement m.target_position s.position) = 0 ∨
  length_sq (axis_displacement m.target_position s.position) < lim.min_length * lim.min_length

instance (lim : Limits) (s : PlannerState) (m : MoveRequest) :
    Decidable (is_degenerate lim s m) := by
  unfold is_degenerate; infer_instance

/-- Modelled from the spec: the block created when a move is accepted (creation is part of the
absent core). Velocities start at zero: an idle machine enters its first block at rest. -/
def new_block (lim : Limits) (s : PlannerState) (m : MoveRequest) : MoveBlock :=
  { target := m.target_position
    displacement := axis_displacement m.target_position s.position
    feed_rate := m.feed_rate
    move_type := m.move_type
    max_velocity := lim.max_velocity (axis_displacement m.target_position s.position)
    entry_velocity := 0
    cruise_velocity := 0
    exit_velocity := 0 }

/-- Modelled from the spec: the largest cruise velocity a block may be given, the requested
feed rate capped by the maximum velocity for the move (planner code is absent from the
headers). -/
def cruise_limit (b : MoveBlock) : Nat :=
  min b.feed_rate b.max_velocity

/-- Modelled from the spec: the bound on the velocity shared by consecutive blocks `a`, `b`:
the cornering-deviation bound, and the cruise limit of either block (planner code is absent
from the headers). -/
def junction_limit (lim : Limits) (a b : MoveBlock) : Nat :=
  min (lim.corner_velocity a.displacement b.displacement) (min (cruise_limit a) (cruise_limit b))

/-- Modelled from the spec: the backward pass of the absent Velocity Planner. Starting from the
newest block, which is assumed to decelerate to zero, it walks toward the head and gives each
block the maximum entry velocity that still lets it decelerate to its already determined exit
velocity. -/
def backward_pass (lim : Limits) : List MoveBlock → List MoveBlock
  | [] => []
  | a :: rest =>
    let planned := backward_pass lim rest
    let exit := match planned with
      | [] => 0
      | b :: _ => min (junction_limit lim a b) b.entry_velocity
    { a with
      exit_velocity := exit
      entry_velocity := min (cruise_limit a) (lim.reach a.displacement exit) } :: planned

/-- Modelled from the spec: the forward pass of the absent Velocity Planner. Starting from the
head, entered at the fixed velocity `entry`, it walks toward the tail; each block leaves at the
smaller of the backward-pass result and what acceleration from its entry can reach, the next
block enters at that velocity, and the cruise velocity is the cruise limit or, for a block too
short to reach it (triangular profile), the peak of the profile. -/
def forward_pass (lim : Limits) (entry : Nat) : List MoveBlock → List MoveBlock
  | [] => []
  | a :: rest =>
    let exit := min a.exit_velocity (lim.reach a.displacement entry)
    { a with
      entry_velocity := entry
      exit_velocity := exit
      cruise_velocity := min (cruise_limit a) (lim.peak a.displacement entry exit) }
      :: forward_pass lim exit rest

/-- Modelled from the spec: one planning pass of the absent Velocity Planner over the whole
queue: backward pass, then forward pass from the head, whose entry velocity is frozen. -/
def replan (lim : Limits) (q : List MoveBlock) : List MoveBlock :=
  match q with
  | [] => []
  | h :: _ => forward_pass lim h.entry_velocity (backward_pass lim q)

/-- Modelled from the spec: the inbound interface `submit_move` (not declared in the headers):
"enqueues a move; fails with `NoBufferSpace` if the queue is full, `MinimumLengthMoveError` if
the move is degenerate"; an accepted move is appended and triggers a planning pass. The checks
are made here in the order of that sentence; `submit_move_ordered` covers the other order. -/
def submit_move (lim : Limits) (s : PlannerState) (m : MoveRequest) : PlannerState × Nat :=
  if queue_full s then (s, TinyG2.STAT_NO_BUFFER_SPACE)
  else if is_degenerate lim s m then (s, TinyG2.STAT_MINIMUM_LENGTH_MOVE_ERROR)
  else ({ queue := replan lim (s.queue ++ [new_block lim s m])
          position := m.target_position }, TinyG2.STAT_OK)

/-- Modelled from the spec: `dequeue_head` of the absent Move Queue: removes and returns the
oldest block once executed and re-triggers planning; the new head keeps its entry velocity. -/
def dequeue_head (lim : Limits) (s : PlannerState) : PlannerState × Option MoveBlock :=
  match s.queue with
  | [] => (s, none)
  | b :: rest => ({ s with queue := replan lim rest }, some b)

/-- Modelled from the spec: the two events that change the Move Queue (absent from the
headers): a submitted move and the removal of the executed head. -/
inductive QueueEvent where
  | submit (m : MoveRequest)
  | dequeue
  deriving DecidableEq, Repr

/-- Modelled from the spec: effect of one queue event on the planner state. -/
def step (lim : Limits) (s : PlannerState) : QueueEvent → PlannerState
  | QueueEvent.submit m => (submit_move lim s m).1
  | QueueEvent.dequeue => (dequeue_head lim s).1

/-- Modelled from the spec: the planner state after a sequence of queue events, starting from
the idle planner. -/
def run (lim : Limits) (events : List QueueEvent) : PlannerState :=
  events.foldl (step lim) initial

/-- Modelled from the spec: the planner has converged on a queue when a further planning pass
leaves every block unchanged. -/
def converged (lim : Limits) (q : List MoveBlock) : Prop :=
  replan lim q = q

/-- Modelled from the spec: velocity continuity, "entry velocity of block i+1 equals exit
velocity of block i", over consecutive queued blocks. -/
def velocities_continuous (q : List MoveBlock) : Prop :=
  ∀ (i : Nat) (a b : MoveBlock), q[i]? = some a → q[i + 1]? = some b →
    b.entry_velocity = a.exit_velocity

/-- Modelled from the spec: the block invariant "entry velocity ≤ cruise velocity ≤ max
velocity for this move". -/
def velocities_ordered (b : MoveBlock) : Prop :=
  b.entry_velocity ≤ b.cruise_velocity ∧ b.cruise_velocity ≤ b.max_velocity

/-- Two blocks describe the same move: they agree on everything the planner does not compute. -/
def same_move (a b : MoveBlock) : Prop :=
  a.target = b.target ∧ a.displacement = b.displacement ∧ a.feed_rate = b.feed_rate ∧
  a.move_type = b.move_type ∧ a.max_velocity = b.max_velocity

/-- Two blocks agree on the move and on the backward-pass velocities. -/
def same_braking (a b : MoveBlock) : Prop :=
  same_move a b ∧ a.entry_velocity = b.entry_velocity ∧ a.exit_velocity = b.exit_velocity

/-- The property every planner state reached from the idle planner has: converged, continuous,
and every block ordered and entered within its cruise limit. -/
def planned (lim : Limits) (s : PlannerState) : Prop :=
  converged lim s.queue ∧ velocities_continuous s.queue ∧
  ∀ b ∈ s.queue, velocities_ordered b ∧ b.entry_velocity ≤ cruise_limit b

/-- A sample configuration used to evaluate the planner on concrete moves: velocity grows by
at most the squared length over a move, corners are taken at up to 300, any direction allows
1000, and the peak of a profile lies half the squared length above its larger end. -/
def sample_limits : Limits :=
  { min_length := 2
    max_velocity := fun _ => 1000
    corner_velocity := fun _ _ => 300
    reach := fun d v => v + length_sq d
    peak := fun d e x => max e x + length_sq d / 2
    entry_le_peak := fun _ e x => Nat.le_trans (Nat.le_max_left e x) (Nat.le_add_right _ _)
    exit_le_peak := fun _ e x => Nat.le_trans (Nat.le_max_right e x) (Nat.le_add_right _ _) }

/-- The `i`-th of a run of sample moves: ten units further along the first axis each time. -/
def sample_move (i : Nat) : MoveRequest :=
  { target_position := [10 * ((i : Int) + 1), 0, 0, 0, 0, 0]
    feed_rate := 500
    move_type := MoveType.line }

/-- Forty-eight sample moves submitted in a row, none executed yet. -/
def full_queue_events : List QueueEvent :=
  (List.range 48).map (fun i => QueueEvent.submit (sample_move i))

/-- The planner state after `full_queue_events`: all `PLANNER_QUEUE_SIZE` slots are taken. -/
def full_queue_state : PlannerState :=
  run sample_limits full_queue_events

/-- A move to the position the planner is already at (zero length). -/
def zero_length_move : MoveRequest :=
  { target_position := [480, 0, 0, 0, 0, 0]
    feed_rate := 500
    move_type := MoveType.line }

/-- Three moves: two collinear ones along the first axis, then a short one that turns a
corner at a low feed rate. -/
def three_moves : List QueueEvent :=
  [ QueueEvent.submit { target_position := [10, 0, 0, 0, 0, 0], feed_rate := 500,
                        move_type := MoveType.line },
    QueueEvent.submit { target_position := [20, 0, 0, 0, 0, 0], feed_rate := 800,
                        move_type := MoveType.line },
    QueueEvent.submit { target_position := [20, 5, 0, 0, 0, 0], feed_rate := 100,
                        move_type := MoveType.line } ]

/-- Modelled from the spec: the order in which the absent `submit_move` makes its two
admission checks. The sentence "fails with `NoBufferSpace` if the queue is full,
`MinimumLengthMoveError` if the move is degenerate" fixes none, so both are kept. -/
inductive CheckOrder where
  | queue_first
  | length_first
  deriving DecidableEq, Repr

/-- Modelled from the spec: the inbound interface `submit_move` (not declared in the headers)
with its two admission checks made in the order `o`; `queue_first` is `submit_move` itself,
`length_first` tests the move before the queue. An accepted move is appended and triggers a
planning pass either way. -/
def submit_move_ordered (o : CheckOrder) (lim : Limits) (s : PlannerState) (m : MoveRequest) :
    PlannerState × Nat :=
  match o with
  | CheckOrder.queue_first => submit_move lim s m
  | CheckOrder.length_first =>
    if is_degenerate lim s m then (s, TinyG2.STAT_MINIMUM_LENGTH_MOVE_ERROR)
    else if queue_full s then (s, TinyG2.STAT_NO_BUFFER_SPACE)
    else ({ queue := replan lim (s.queue ++ [new_block lim s m])
            position := m.target_position }, TinyG2.STAT_OK)

/-- A move one unit long from the position reached after `full_queue_events`: not zero-length,
but below the minimum length 2 of `sample_limits`. -/
def short_move : MoveRequest :=
  { target_position := [481, 0, 0, 0, 0, 0]
    feed_rate := 500
    move_type := MoveType.line }

/-- A move one unit long from the start-up position: not zero-length, but below the minimum
length 2 of `sample_limits`. -/
def short_first_move : MoveRequest :=
  { target_position := [0, 1, 0, 0, 0, 0]
    feed_rate := 500
    move_type := MoveType.line }

/-- A move to the start-up position itself (zero length). -/
def zero_length_first_move : MoveRequest :=
  { target_position := [0, 0, 0, 0, 0, 0]
    feed_rate := 500
    move_type := MoveType.line }

end Planner

open TinyG2 ArduinoDue Planner

/-! ## Theorems -/

/-- C1: for every status value `a` in 0..255, `ritorno(a)` returns at that point iff
`a != STAT_OK`, the value returned is `a`, and when `a = STAT_OK` execution continues with the
statement after the macro (with `status_code` holding `a` either way). -/
theorem ritorno_returns_iff_error (a : Nat) (ha : a < 256) (g : Globals)
    (rest : Globals → Globals × Nat) :
    ((∃ v, (ritorno a g).2 = Flow.returned v) ↔ a ≠ STAT_OK) ∧
    (∀ v, (ritorno a g).2 = Flow.returned v → v = a) ∧
    ((ritorno a g).1.status_code = a) ∧
    (a ≠ STAT_OK → body_after_ritorno a rest g = ({ g with status_code := a }, a)) ∧
    (a = STAT_OK → (ritorno a g).2 = Flow.continues ∧
      body_after_ritorno a rest g = rest { g with status_code := a }) := by
  have hm : a % STAT_T_MODULUS = a := Nat.mod_eq_of_lt (by simpa [STAT_T_MODULUS] using ha)
  by_cases h : a = STAT_OK
  · subst h
    simp [ritorno, body_after_ritorno, STAT_T_MODULUS, STAT_OK]
  · simp [ritorno, body_after_ritorno, hm, h]

/-- Witness for C1 at `a = STAT_NO_BUFFER_SPACE` (51). -/
theorem ritorno_returns_iff_error_witness :
    (51 : Nat) < 256 ∧
    (ritorno 51 { status_code := 0 }).2 = Flow.returned 51 ∧
    body_after_ritorno 51 (fun g => (g, 0)) { status_code := 0 } = ({ status_code := 51 }, 51) :=
  ⟨by decide, by decide,
   (ritorno_returns_iff_error 51 (by decide) { status_code := 0 } (fun g => (g, 0))).2.2.2.1
     (by decide)⟩

/-- C2: the first status-code range is exactly 0-19: the twenty codes `STAT_OK` through
`STAT_ERROR_19` take the values 0,1,...,19 in order, every value in 0..19 belongs to exactly one
of them, and no status code defined after that block has a value in 0..19. -/
theorem first_status_range_is_0_to_19 :
    os_status_codes.length = 20 ∧
    os_status_codes.head? = some ("STAT_OK", 0) ∧
    os_status_codes.getLast? = some ("STAT_ERROR_19", 19) ∧
    os_status_codes.map Prod.snd = List.range 20 ∧
    (all_status_codes.map Prod.fst).Nodup ∧
    (∀ v : Fin 20, (os_status_codes.filter (fun r => r.2 = v.val)).length = 1) ∧
    (∀ v : Fin 20, later_status_codes.filter (fun r => r.2 = v.val) = []) ∧
    (∀ v : Fin 20, (all_status_codes.filter (fun r => r.2 = v.val)).length = 1) := by
  refine ⟨by decide, by decide, by decide, by decide, by decide, by decide, by decide, by decide⟩

/-- C3: in the interrupt priority table `DDA_TIMER` (step pulse generation) has priority 0,
every other listed interrupt has a strictly larger priority number (lower priority), the
software-generated `LOADER` and `EXEC` interrupts have priorities 2 and 4, and the six listed
priorities are 0..5, pairwise distinct. -/
theorem dda_timer_has_highest_priority :
    priority_of Interrupt.DDA_TIMER = some 0 ∧
    (∀ i : Interrupt, i = Interrupt.DDA_TIMER ∨ ∃ p, priority_of i = some p ∧ 0 < p) ∧
    priority_of Interrupt.LOADER = some 2 ∧
    priority_of Interrupt.EXEC = some 4 ∧
    (interrupt_table.filter (fun r => r.software_generated)).map (fun r => r.source)
      = [Interrupt.LOADER, Interrupt.EXEC] ∧
    interrupt_table.length = 6 ∧
    interrupt_table.map (fun r => r.priority) = [0, 1, 2, 3, 4, 5] ∧
    (interrupt_table.map (fun r => r.priority)).Nodup ∧
    (interrupt_table.map (fun r => r.source)).Nodup := by
  refine ⟨by decide, ?_, by decide, by decide, by decide, by decide, by decide, by decide,
    by decide⟩
  intro i
  cases i
  · exact Or.inl rfl
  · exact Or.inr ⟨1, by decide, by decide⟩
  · exact Or.inr ⟨2, by decide, by decide⟩
  · exact Or.inr ⟨3, by decide, by decide⟩
  · exact Or.inr ⟨4, by decide, by decide⟩
  · exact Or.inr ⟨5, by decide, by decide⟩

/-- C4: the planner queue depth `PLANNER_QUEUE_SIZE` is 48 and the axis count `AXES` is 6 in
both headers, which meets the hardware header's requirement that `AXES` be 6 or 9. -/
theorem sizing_constants :
    ArduinoDue.PLANNER_QUEUE_SIZE = 48 ∧
    TinyG2.AXES = 6 ∧
    ArduinoDue.AXES = 6 ∧
    TinyG2.AXES = ArduinoDue.AXES ∧
    (ArduinoDue.AXES = 6 ∨ ArduinoDue.AXES = 9) := by
  refine ⟨rfl, rfl, rfl, rfl, Or.inl rfl⟩

/-- C5 as stated fails: `MIN_SEGMENT_MS` is not strictly below one millisecond, and a segment
of `MIN_SEGMENT_MS` does not span fewer than `FREQUENCY_DDA / 1000 = 100` DDA ticks. -/
theorem min_segment_not_sub_millisecond :
    ¬ (MIN_SEGMENT_MS < 1) ∧
    ¬ (dda_ticks_in MIN_SEGMENT_MS < ((FREQUENCY_DDA / 1000 : Nat) : ℚ)) := by
  constructor <;> norm_num [MIN_SEGMENT_MS, dda_ticks_in, FREQUENCY_DDA]

/-- C5, amended: `MIN_SEGMENT_MS` is exactly one millisecond, hence at most (not strictly
below) one millisecond, and a segment of `MIN_SEGMENT_MS` spans exactly
`FREQUENCY_DDA / 1000 = 100` DDA ticks at the 100000 Hz pulse clock. -/
theorem min_segment_is_one_millisecond :
    MIN_SEGMENT_MS = 1 ∧
    MIN_SEGMENT_MS ≤ 1 ∧
    FREQUENCY_DDA = 100000 ∧
    FREQUENCY_DDA / 1000 = 100 ∧
    dda_ticks_in MIN_SEGMENT_MS = ((FREQUENCY_DDA / 1000 : Nat) : ℚ) ∧
    dda_ticks_in MIN_SEGMENT_MS = 100 := by
  refine ⟨rfl, ?_, rfl, by decide, ?_, ?_⟩ <;>
    norm_num [MIN_SEGMENT_MS, dda_ticks_in, FREQUENCY_DDA]

/-- C8, evaluated on the header: the DDA timer is bound to hardware timer 3 as the table says
and the three typedefs bind the distinct timers 3, 4, 5; but hardware timer 4, which the table
documents as `DWELL_TIMER`, is bound by the typedefs to `exec_timer_type`, no typedef binds a
dwell timer, and the table lists `EXEC` without a hardware timer. -/
theorem timer_four_documented_dwell_bound_exec :
    documented_timer Interrupt.DDA_TIMER = some 3 ∧
    timer_binding TimerTypedef.dda_timer_type = { timer := 3, channel := 0 } ∧
    typedef_on_timer 3 = some TimerTypedef.dda_timer_type ∧
    timer_typedefs.map (fun t => (timer_binding t).timer) = [3, 4, 5] ∧
    (timer_typedefs.map (fun t => (timer_binding t).timer)).Nodup ∧
    documented_timer Interrupt.DWELL_TIMER = some 4 ∧
    documented_user 4 = some Interrupt.DWELL_TIMER ∧
    typedef_on_timer 4 = some TimerTypedef.exec_timer_type ∧
    typedef_function TimerTypedef.exec_timer_type = some Interrupt.EXEC ∧
    typedef_for Interrupt.DWELL_TIMER = none ∧
    documented_timer Interrupt.EXEC = none := by
  refine ⟨by decide, by decide, by decide, by decide, by decide, by decide, by decide,
    by decide, by decide, by decide, by decide⟩


/-! ### Velocity planner: auxiliary facts -/

theorem same_move_cruise_limit {a b : MoveBlock} (h : same_move a b) :
    cruise_limit a = cruise_limit b := by
  obtain ⟨-, -, h3, -, h5⟩ := h
  simp [cruise_limit, h3, h5]

theorem same_move_junction_limit (lim : Limits) {a b c d : MoveBlock} (h1 : same_move a b)
    (h2 : same_move c d) : junction_limit lim a c = junction_limit lim b d := by
  have e1 := same_move_cruise_limit h1
  have e2 := same_move_cruise_limit h2
  obtain ⟨-, d1, -, -, -⟩ := h1
  obtain ⟨-, d2, -, -, -⟩ := h2
  simp [junction_limit, e1, e2, d1, d2]

theorem backward_pass_same_braking (lim : Limits) {q q' : List MoveBlock}
    (h : List.Forall₂ same_move q q') :
    List.Forall₂ same_braking (backward_pass lim q) (backward_pass lim q') := by
  induction h with
  | nil => exact List.Forall₂.nil
  | @cons a b l l' hab _ ih =>
    have hc := same_move_cruise_limit hab
    have hd : a.displacement = b.displacement := hab.2.1
    have hx : (match backward_pass lim l with
        | [] => 0
        | c :: _ => min (junction_limit lim a c) c.entry_velocity) =
        (match backward_pass lim l' with
        | [] => 0
        | c :: _ => min (junction_limit lim b c) c.entry_velocity) := by
      revert ih
      generalize backward_pass lim l = X
      generalize backward_pass lim l' = Y
      intro ih
      cases ih with
      | nil => rfl
      | cons hcd _ =>
        simp only
        rw [same_move_junction_limit lim hab hcd.1, hcd.2.1]
    simp only [backward_pass]
    refine List.Forall₂.cons ⟨?_, ?_, ?_⟩ ih
    · exact hab
    · simp only [hx, hc, hd]
    · simp only [hx]

theorem forward_pass_congr (lim : Limits) {q q' : List MoveBlock}
    (h : List.Forall₂ same_braking q q') (v : Nat) :
    forward_pass lim v q = forward_pass lim v q' := by
  induction h generalizing v with
  | nil => rfl
  | @cons a b l l' hab _ ih =>
    obtain ⟨⟨h1, h2, h3, h4, h5⟩, -, h7⟩ := hab
    have hc : cruise_limit a = cruise_limit b := by simp [cruise_limit, h3, h5]
    simp only [forward_pass]
    rw [ih, h7, h2, hc]
    congr 1
    cases a
    cases b
    simp_all

theorem same_move_refl (a : MoveBlock) : same_move a a :=
  ⟨rfl, rfl, rfl, rfl, rfl⟩

theorem same_move_symm {a b : MoveBlock} (h : same_move a b) : same_move b a :=
  ⟨h.1.symm, h.2.1.symm, h.2.2.1.symm, h.2.2.2.1.symm, h.2.2.2.2.symm⟩

theorem same_move_trans {a b c : MoveBlock} (h : same_move a b) (k : same_move b c) :
    same_move a c :=
  ⟨h.1.trans k.1, h.2.1.trans k.2.1, h.2.2.1.trans k.2.2.1, h.2.2.2.1.trans k.2.2.2.1,
    h.2.2.2.2.trans k.2.2.2.2⟩

/-- The backward pass changes no move, only velocities. -/
theorem backward_pass_same_move (lim : Limits) (q : List MoveBlock) :
    List.Forall₂ same_move (backward_pass lim q) q := by
  induction q with
  | nil => exact List.Forall₂.nil
  | cons a rest ih =>
    simp only [backward_pass]
    exact List.Forall₂.cons ⟨rfl, rfl, rfl, rfl, rfl⟩ ih

/-- The forward pass changes no move, only velocities. -/
theorem forward_pass_same_move (lim : Limits) (v : Nat) (q : List MoveBlock) :
    List.Forall₂ same_move (forward_pass lim v q) q := by
  induction q generalizing v with
  | nil => exact List.Forall₂.nil
  | cons a rest ih =>
    simp only [forward_pass]
    exact List.Forall₂.cons ⟨rfl, rfl, rfl, rfl, rfl⟩ (ih _)

theorem forall₂_same_move_trans {q1 q2 q3 : List MoveBlock}
    (h : List.Forall₂ same_move q1 q2) (k : List.Forall₂ same_move q2 q3) :
    List.Forall₂ same_move q1 q3 := by
  induction h generalizing q3 with
  | nil => cases k; exact List.Forall₂.nil
  | cons hab _ ih =>
    cases k with
    | cons hbc k2 => exact List.Forall₂.cons (same_move_trans hab hbc) (ih k2)

/-- A planning pass changes no move, only velocities. -/
theorem replan_same_move (lim : Limits) (q : List MoveBlock) :
    List.Forall₂ same_move (replan lim q) q := by
  cases q with
  | nil => exact List.Forall₂.nil
  | cons h t =>
    exact forall₂_same_move_trans (forward_pass_same_move lim _ _) (backward_pass_same_move lim _)

/-- A planning pass keeps the number of queued blocks. -/
theorem replan_length (lim : Limits) (q : List MoveBlock) :
    (replan lim q).length = q.length :=
  (replan_same_move lim q).length_eq

/-- The head keeps its (frozen) entry velocity through a planning pass. -/
theorem replan_head_entry (lim : Limits) (h : MoveBlock) (t : List MoveBlock) :
    ∃ h1 t1, replan lim (h :: t) = h1 :: t1 ∧ h1.entry_velocity = h.entry_velocity := by
  simp only [replan, backward_pass, forward_pass]
  exact ⟨_, _, rfl, rfl⟩

/-- Idempotence: replanning an already planned queue leaves all velocities unchanged. -/
theorem replan_idempotent (lim : Limits) (q : List MoveBlock) :
    replan lim (replan lim q) = replan lim q := by
  cases q with
  | nil => rfl
  | cons h t =>
    obtain ⟨h1, t1, e1, e2⟩ := replan_head_entry lim h t
    have hs : List.Forall₂ same_move (h1 :: t1) (h :: t) := e1 ▸ replan_same_move lim (h :: t)
    have hb := backward_pass_same_braking lim hs
    rw [e1]
    show forward_pass lim h1.entry_velocity (backward_pass lim (h1 :: t1)) = h1 :: t1
    rw [forward_pass_congr lim hb, e2, ← e1]
    rfl

/-- After the backward pass no block leaves faster than its own cruise limit allows. -/
theorem backward_pass_exit_le (lim : Limits) (q : List MoveBlock) :
    ∀ b ∈ backward_pass lim q, b.exit_velocity ≤ cruise_limit b := by
  induction q with
  | nil => intro b hb; simp [backward_pass] at hb
  | cons a rest ih =>
    intro b hb
    simp only [backward_pass, List.mem_cons] at hb
    rcases hb with rfl | hb
    · show _ ≤ cruise_limit a
      cases backward_pass lim rest with
      | nil => exact Nat.zero_le _
      | cons c _ =>
        show min (junction_limit lim a c) c.entry_velocity ≤ cruise_limit a
        exact (Nat.min_le_left _ _).trans ((Nat.min_le_right _ _).trans (Nat.min_le_left _ _))
    · exact ih b hb

/-- After the backward pass no block leaves faster than the cruise limit of its successor. -/
theorem backward_pass_exit_le_next (lim : Limits) (q : List MoveBlock) :
    List.Chain' (fun a b => a.exit_velocity ≤ cruise_limit b) (backward_pass lim q) := by
  induction q with
  | nil => exact List.chain'_nil
  | cons a rest ih =>
    simp only [backward_pass]
    rw [List.chain'_cons']
    refine ⟨?_, ih⟩
    intro c hc
    cases hp : backward_pass lim rest with
    | nil => rw [hp] at hc; simp at hc
    | cons c1 t =>
      rw [hp] at hc
      simp only [List.head?_cons, Option.mem_def, Option.some.injEq] at hc
      subst hc
      show min (junction_limit lim a c1) c1.entry_velocity ≤ cruise_limit c1
      exact (Nat.min_le_left _ _).trans ((Nat.min_le_right _ _).trans (Nat.min_le_right _ _))

/-- The forward pass enters every block at the velocity its predecessor leaves with. -/
theorem forward_pass_chain (lim : Limits) (v : Nat) (q : List MoveBlock) :
    List.Chain' (fun a b => b.entry_velocity = a.exit_velocity) (forward_pass lim v q) ∧
    ∀ h ∈ (forward_pass lim v q).head?, h.entry_velocity = v := by
  induction q generalizing v with
  | nil => exact ⟨List.chain'_nil, by intro h hh; simp [forward_pass] at hh⟩
  | cons a rest ih =>
    simp only [forward_pass]
    refine ⟨?_, ?_⟩
    · rw [List.chain'_cons']
      exact ⟨fun h hh => (ih _).2 h hh, (ih _).1⟩
    · intro h hh
      simp only [List.head?_cons, Option.mem_def, Option.some.injEq] at hh
      subst hh
      rfl

/-- A chain property read off by index. -/
theorem chain_getElem {R : MoveBlock → MoveBlock → Prop} :
    ∀ (q : List MoveBlock), List.Chain' R q →
      ∀ (i : Nat) (a b : MoveBlock), q[i]? = some a → q[i + 1]? = some b → R a b := by
  intro q
  induction q with
  | nil => intro _ i a b ha _; simp at ha
  | cons x rest ih =>
    intro hc i a b ha hb
    rw [List.chain'_cons'] at hc
    cases i with
    | zero =>
      simp only [List.getElem?_cons_zero, Option.some.injEq] at ha
      subst ha
      simp only [Nat.zero_add, List.getElem?_cons_succ] at hb
      apply hc.1
      cases rest with
      | nil => simp at hb
      | cons y t =>
        simp only [List.getElem?_cons_zero, Option.some.injEq] at hb
        simp [hb]
    | succ j =>
      simp only [List.getElem?_cons_succ] at ha hb
      exact ih hc.2 j a b ha hb

/-- The forward pass, run on a queue whose exit velocities respect the cruise limits of the
block and of its successor and entered within the head's cruise limit, gives every block
entry ≤ cruise ≤ max velocity, and an entry velocity within its cruise limit. -/
theorem forward_pass_ordered (lim : Limits) (v : Nat) (q : List MoveBlock)
    (hv : ∀ h ∈ q.head?, v ≤ cruise_limit h)
    (hx : ∀ b ∈ q, b.exit_velocity ≤ cruise_limit b)
    (hn : List.Chain' (fun a b => a.exit_velocity ≤ cruise_limit b) q) :
    ∀ b ∈ forward_pass lim v q, velocities_ordered b ∧ b.entry_velocity ≤ cruise_limit b := by
  induction q generalizing v with
  | nil => intro b hb; simp [forward_pass] at hb
  | cons a rest ih =>
    have hva : v ≤ cruise_limit a := hv a (by simp)
    rw [List.chain'_cons'] at hn
    intro b hb
    simp only [forward_pass, List.mem_cons] at hb
    rcases hb with rfl | hb
    · refine ⟨⟨?_, ?_⟩, hva⟩
      · exact Nat.le_min.mpr ⟨hva, lim.entry_le_peak _ _ _⟩
      · exact (Nat.min_le_left _ _).trans (Nat.min_le_right _ _)
    · refine ih _ ?_ (fun c hc => hx c (List.mem_cons_of_mem _ hc)) hn.2 b hb
      intro h hh
      exact (Nat.min_le_left _ _).trans (hn.1 h hh)

/-- What one planning pass establishes, for a queue whose head is entered within its cruise
limit: the result is converged, velocity-continuous, and every block has
entry ≤ cruise ≤ max velocity with its entry within its cruise limit. -/
theorem replan_planned (lim : Limits) (q : List MoveBlock)
    (hv : ∀ h ∈ q.head?, h.entry_velocity ≤ cruise_limit h) :
    converged lim (replan lim q) ∧ velocities_continuous (replan lim q) ∧
    ∀ b ∈ replan lim q, velocities_ordered b ∧ b.entry_velocity ≤ cruise_limit b := by
  refine ⟨replan_idempotent lim q, ?_, ?_⟩
  · cases q with
    | nil => intro i a b ha _; simp [replan] at ha
    | cons h t => exact chain_getElem _ (forward_pass_chain lim _ _).1
  · cases q with
    | nil => intro b hb; simp [replan] at hb
    | cons h t =>
      refine forward_pass_ordered lim _ _ ?_ (backward_pass_exit_le lim _)
        (backward_pass_exit_le_next lim _)
      intro h1 hh1
      simp only [backward_pass, List.head?_cons, Option.mem_def, Option.some.injEq] at hh1
      subst hh1
      exact hv h (by simp)

theorem planned_initial (lim : Limits) : planned lim initial :=
  ⟨rfl, by intro i a b ha _; simp [initial] at ha, by intro b hb; simp [initial] at hb⟩

theorem planned_submit_move (lim : Limits) (s : PlannerState) (m : MoveRequest)
    (hs : planned lim s) : planned lim (submit_move lim s m).1 := by
  unfold submit_move
  split
  · exact hs
  · split
    · exact hs
    · apply replan_planned
      intro h hh
      cases hq : s.queue with
      | nil =>
        rw [hq] at hh
        simp only [List.nil_append, List.head?_cons, Option.mem_def, Option.some.injEq] at hh
        subst hh
        exact Nat.zero_le _
      | cons x t =>
        rw [hq] at hh
        simp only [List.cons_append, List.head?_cons, Option.mem_def, Option.some.injEq] at hh
        subst hh
        exact (hs.2.2 x (by rw [hq]; simp)).2

theorem planned_dequeue_head (lim : Limits) (s : PlannerState)
    (hs : planned lim s) : planned lim (dequeue_head lim s).1 := by
  unfold dequeue_head
  split
  · exact hs
  · rename_i x rest hq
    apply replan_planned
    intro h hh
    have hm : h ∈ s.queue := by
      rw [hq]
      exact List.mem_cons_of_mem _ (List.mem_of_mem_head? hh)
    exact (hs.2.2 h hm).2

theorem planned_step (lim : Limits) (s : PlannerState) (e : QueueEvent)
    (hs : planned lim s) : planned lim (step lim s e) := by
  cases e with
  | submit m => exact planned_submit_move lim s m hs
  | dequeue => exact planned_dequeue_head lim s hs

theorem planned_foldl (lim : Limits) (events : List QueueEvent) (s : PlannerState)
    (hs : planned lim s) : planned lim (events.foldl (step lim) s) := by
  induction events generalizing s with
  | nil => exact hs
  | cons e rest ih => exact ih _ (planned_step lim s e hs)

/-- C7: for every sequence of queue events (moves submitted, executed heads removed), the
planner has converged on the resulting queue (a further planning pass changes nothing), the
entry velocity of block i+1 equals the exit velocity of block i for every pair of consecutive
queued blocks, and each block satisfies entry velocity ≤ cruise velocity ≤ its maximum
velocity. -/
theorem planned_queue_velocities (lim : Limits) (events : List QueueEvent) :
    converged lim (run lim events).queue ∧
    (∀ (i : Nat) (a b : MoveBlock), (run lim events).queue[i]? = some a →
      (run lim events).queue[i + 1]? = some b → b.entry_velocity = a.exit_velocity) ∧
    (∀ b ∈ (run lim events).queue,
      b.entry_velocity ≤ b.cruise_velocity ∧ b.cruise_velocity ≤ b.max_velocity) := by
  have h := planned_foldl lim events initial (planned_initial lim)
  exact ⟨h.1, h.2.1, fun b hb => (h.2.2 b hb).1⟩


/-- Witness for C7: three sample moves, planned; the head is then executed and removed. The
queue is not empty, its velocities are not all zero, and the theorem applies to it. -/
theorem planned_queue_velocities_witness :
    (run sample_limits three_moves).queue.map
        (fun b => (b.entry_velocity, b.cruise_velocity, b.exit_velocity, b.max_velocity))
      = [(0, 150, 100, 1000), (100, 150, 25, 1000), (25, 37, 0, 1000)] ∧
    (run sample_limits (three_moves ++ [QueueEvent.dequeue])).queue.map
        (fun b => (b.entry_velocity, b.cruise_velocity, b.exit_velocity, b.max_velocity))
      = [(100, 150, 25, 1000), (25, 37, 0, 1000)] ∧
    (∀ b ∈ (run sample_limits three_moves).queue,
      b.entry_velocity ≤ b.cruise_velocity ∧ b.cruise_velocity ≤ b.max_velocity) :=
  ⟨by decide, by decide, (planned_queue_velocities sample_limits three_moves).2.2⟩

/-- An accepted move is appended: when the queue is not full and the move is not degenerate,
`submit_move` returns `STAT_OK` and the queue holds one more block. -/
theorem submit_move_accepts (lim : Limits) (s : PlannerState) (m : MoveRequest)
    (hf : ¬ queue_full s) (hd : ¬ is_degenerate lim s m) :
    (submit_move lim s m).2 = STAT_OK ∧
    (submit_move lim s m).1.queue.length = s.queue.length + 1 ∧
    (submit_move lim s m).1.position = m.target_position := by
  simp [submit_move, hf, hd, replan_length]

/-- The order of the two admission checks never changes the planner state `submit_move`
leaves behind, only the status reported when both checks fail. -/
theorem submit_move_ordered_state (o : CheckOrder) (lim : Limits) (s : PlannerState)
    (m : MoveRequest) : (submit_move_ordered o lim s m).1 = (submit_move lim s m).1 := by
  cases o with
  | queue_first => rfl
  | length_first =>
    by_cases hf : queue_full s <;> by_cases hd : is_degenerate lim s m <;>
      simp [submit_move_ordered, submit_move, hf, hd]

set_option maxRecDepth 100000 in
/-- C6 as stated fails where its two cases overlap. A degenerate move (zero-length, or one
unit long against a minimum length of two) submitted while the queue is full gets one status,
so one of the two clauses of the claim fails whichever check `submit_move` makes first: with
the queue checked first the status is `STAT_NO_BUFFER_SPACE`, not
`STAT_MINIMUM_LENGTH_MOVE_ERROR`; with the length checked first it is
`STAT_MINIMUM_LENGTH_MOVE_ERROR`, not `STAT_NO_BUFFER_SPACE`. -/
theorem submit_move_full_and_degenerate :
    queue_full full_queue_state ∧
    is_degenerate sample_limits full_queue_state zero_length_move ∧
    is_degenerate sample_limits full_queue_state short_move ∧
    length_sq (axis_displacement short_move.target_position full_queue_state.position) = 1 ∧
    (submit_move sample_limits full_queue_state zero_length_move).2
      ≠ STAT_MINIMUM_LENGTH_MOVE_ERROR ∧
    (submit_move_ordered CheckOrder.queue_first sample_limits full_queue_state short_move).2
      = STAT_NO_BUFFER_SPACE ∧
    (submit_move_ordered CheckOrder.queue_first sample_limits full_queue_state short_move).2
      ≠ STAT_MINIMUM_LENGTH_MOVE_ERROR ∧
    (submit_move_ordered CheckOrder.length_first sample_limits full_queue_state short_move).2
      = STAT_MINIMUM_LENGTH_MOVE_ERROR ∧
    (submit_move_ordered CheckOrder.length_first sample_limits full_queue_state short_move).2
      ≠ STAT_NO_BUFFER_SPACE ∧
    (submit_move_ordered CheckOrder.length_first sample_limits full_queue_state
      zero_length_move).2 ≠ STAT_NO_BUFFER_SPACE := by
  refine ⟨by decide, by decide, by decide, by decide, by decide, by decide, by decide,
    by decide, by decide, by decide⟩

/-- C6, amended: whichever of its two admission checks `submit_move` makes first, it returns
`STAT_NO_BUFFER_SPACE` (51) for every non-degenerate move submitted while the move queue is
full, `STAT_MINIMUM_LENGTH_MOVE_ERROR` (60) for every degenerate (zero-length or
below-minimum-length) move submitted while the queue is not full, and one of these two statuses
for a degenerate move submitted while the queue is full; both statuses differ from `STAT_OK`
and from each other, and in none of these cases is a block added to the queue (the planner
state is returned unchanged). -/
theorem submit_move_admission_errors (o : CheckOrder) (lim : Limits) (s : PlannerState)
    (m : MoveRequest) :
    (queue_full s → ¬ is_degenerate lim s m →
      submit_move_ordered o lim s m = (s, STAT_NO_BUFFER_SPACE)) ∧
    (is_degenerate lim s m → ¬ queue_full s →
      submit_move_ordered o lim s m = (s, STAT_MINIMUM_LENGTH_MOVE_ERROR)) ∧
    (queue_full s → is_degenerate lim s m →
      submit_move_ordered o lim s m = (s, STAT_NO_BUFFER_SPACE) ∨
      submit_move_ordered o lim s m = (s, STAT_MINIMUM_LENGTH_MOVE_ERROR)) ∧
    submit_move_ordered CheckOrder.queue_first lim s m = submit_move lim s m ∧
    STAT_NO_BUFFER_SPACE = 51 ∧
    STAT_MINIMUM_LENGTH_MOVE_ERROR = 60 ∧
    STAT_NO_BUFFER_SPACE ≠ STAT_OK ∧
    STAT_MINIMUM_LENGTH_MOVE_ERROR ≠ STAT_OK ∧
    STAT_NO_BUFFER_SPACE ≠ STAT_MINIMUM_LENGTH_MOVE_ERROR := by
  refine ⟨?_, ?_, ?_, rfl, rfl, rfl, by decide, by decide, by decide⟩
  · intro hf hd
    cases o <;> simp [submit_move_ordered, submit_move, hf, hd]
  · intro hd hf
    cases o <;> simp [submit_move_ordered, submit_move, hf, hd]
  · intro hf hd
    cases o
    · exact Or.inl (by simp [submit_move_ordered, submit_move, hf])
    · exact Or.inr (by simp [submit_move_ordered, hd])

set_option maxRecDepth 100000 in
/-- Witness for C6, amended, with the length checked first: a further sample move (ten units
long) submitted to the full queue, a one-unit move and a zero-length move submitted to the
idle planner, and a one-unit move submitted to the full queue. -/
theorem submit_move_admission_errors_witness :
    (queue_full full_queue_state ∧
      ¬ is_degenerate sample_limits full_queue_state (sample_move 48) ∧
      submit_move_ordered CheckOrder.length_first sample_limits full_queue_state (sample_move 48)
        = (full_queue_state, STAT_NO_BUFFER_SPACE)) ∧
    (is_degenerate sample_limits initial short_first_move ∧ ¬ queue_full initial ∧
      submit_move_ordered CheckOrder.length_first sample_limits initial short_first_move
        = (initial, STAT_MINIMUM_LENGTH_MOVE_ERROR)) ∧
    (is_degenerate sample_limits initial zero_length_first_move ∧
      submit_move_ordered CheckOrder.queue_first sample_limits initial zero_length_first_move
        = (initial, STAT_MINIMUM_LENGTH_MOVE_ERROR)) ∧
    (is_degenerate sample_limits full_queue_state short_move ∧
      (submit_move_ordered CheckOrder.length_first sample_limits full_queue_state short_move
          = (full_queue_state, STAT_NO_BUFFER_SPACE) ∨
        submit_move_ordered CheckOrder.length_first sample_limits full_queue_state short_move
          = (full_queue_state, STAT_MINIMUM_LENGTH_MOVE_ERROR))) :=
  ⟨⟨by decide, by decide,
    (submit_move_admission_errors CheckOrder.length_first sample_limits full_queue_state
      (sample_move 48)).1 (by decide) (by decide)⟩,
   ⟨by decide, by decide,
    (submit_move_admission_errors CheckOrder.length_first sample_limits initial
      short_first_move).2.1 (by decide) (by decide)⟩,
   ⟨by decide,
    (submit_move_admission_errors CheckOrder.queue_first sample_limits initial
      zero_length_first_move).2.1 (by decide) (by decide)⟩,
   ⟨by decide,
    (submit_move_admission_errors CheckOrder.length_first sample_limits full_queue_state
      short_move).2.2.1 (by decide) (by decide)⟩⟩
